import Mathlib

/-!
Shallow embedding of the session/authentication layer of a multi-tenant SaaS
starter (TypeScript, Next.js).  Embedded modules:

* `lib/auth/session.ts` — JWT codec (`signToken`/`verifyToken` over jose,
  algorithm pinned to HS256), cookie-backed session store
  (`getSession`/`setSession`/`updateSession`).
* `lib/auth/middleware.ts` — the three action guards
  (`validatedAction`, `validatedActionWithUser`, `withAuth`).
* the server actions `signUp`, `signOut` and the `logActivity` helper.

Modelling conventions:
* ISO-8601 timestamp strings are carried as their underlying epoch-millisecond
  value (`Nat`); the conversion is a bijection and no claim depends on the
  textual form.
* The JWT wire format is a structural record (header algorithm, claims,
  signature value); an unparseable cookie string is `TokenWire.malformed`.
  The HMAC primitive is modelled by a concrete deterministic keyed mixing
  function `hmacSig`; verification recomputes it exactly as jose recomputes
  the MAC.  No claim below relies on cryptographic strength, only on the
  verifier accepting exactly the tokens whose recomputed MAC matches.
* `async` functions that can reject are embedded as `Except`-valued
  functions: `.error` is an exception propagating to the caller.
* Next.js `redirect` and `throw` are distinct outcome constructors, matching
  the three caller-visible failure channels of the guards.
-/

namespace SaaS

/-- Prisma enum `UserRole`. -/
inductive UserRole where
  | MEMBER
  | ADMIN


/-- Prisma enum `ActivityType` (the members the auth actions use). -/
inductive ActivityType where
  | EMAIL_SIGN_UP
  | EMAIL_SIGN_IN
  | SIGN_OUT
  | UPDATE_PASSWORD
  | DELETE_ACCOUNT
  | UPDATE_ACCOUNT
  | CREATE_TEAM
  | REMOVE_TEAM_MEMBER
  | INVITE_TEAM_MEMBER
  | ACCEPT_INVITATION


/-- Prisma enum `InvitationStatus`. -/
inductive InvitationStatus where
  | PENDING
  | ACCEPTED
  | REJECTED
deriving BEq

/-- `type UserData = { userId; teamId; userRole }` from `session.ts`. -/
structure UserData where
  userId : String
  teamId : String
  userRole : UserRole


/-- `type SessionData = UserData & { expires: string }`; the ISO string is
carried as its epoch-millisecond timestamp. -/
structure SessionData extends UserData where
  expires : Nat


/-- JWS algorithm identifiers that can appear in a token header. -/
inductive Alg where
  | HS256
  | HS512
  | RS256
deriving DecidableEq

def Alg.code : Alg → Nat
  | .HS256 => 1
  | .HS512 => 2
  | .RS256 => 3

def UserRole.code : UserRole → Nat
  | .MEMBER => 0
  | .ADMIN => 1

/-- Injective-enough encoding of a string for the MAC model. -/
def strCode (s : String) : Nat :=
  s.data.foldl (fun a c => 257 * a + c.toNat + 1) 7

/-- Model of the keyed MAC jose computes over (header, claims): a concrete
deterministic function of the secret, the declared algorithm and every claim.
The verifier recomputes this value and compares, exactly as `jwtVerify`
recomputes the HMAC. -/
def hmacSig (key : String) (alg : Alg) (p : SessionData) (iat exp : Nat) : Nat :=
  65537 * alg.code + 41 * p.userRole.code + 43 * p.expires + 47 * iat +
    53 * exp + 37 * strCode p.teamId + 31 * strCode p.userId +
    1000003 * strCode key

/-- A structurally well-formed JWT: protected header algorithm, the
`SessionData` custom claims, `iat`/`exp` (seconds since epoch), signature. -/
structure JWT where
  alg : Alg
  payload : SessionData
  iat : Nat
  exp : Nat
  sig : Nat


/-- A cookie value on the wire: a string that does not parse as a JWT at
all, or a structurally well-formed token. -/
inductive TokenWire where
  | malformed
  | tok (t : JWT)


/-- Rejection reasons of `jwtVerify`; each surfaces as a thrown `JOSEError`. -/
inductive JwtError where
  | malformedToken
  | badAlgorithm
  | invalidSignature
  | expired


/-- `signToken` (session.ts:29): header `{alg: "HS256"}`, issued-at now,
expiration "1 day from now" (seconds granularity), HMAC under `key`.
`now` is the current time in milliseconds. -/
def signToken (key : String) (now : Nat) (payload : SessionData) : JWT :=
  let iat := now / 1000
  let exp := iat + 86400
  { alg := .HS256, payload := payload, iat := iat, exp := exp
    sig := hmacSig key .HS256 payload iat exp }

/-- `verifyToken` (session.ts:37): `jwtVerify(input, key, {algorithms: ["HS256"]})`.
Rejects unparseable input, any header algorithm other than HS256, a MAC that
does not recompute, and an elapsed `exp` claim; each rejection is a thrown
error, modelled as `.error`. -/
def verifyToken (key : String) (now : Nat) : TokenWire → Except JwtError SessionData
  | .malformed => .error .malformedToken
  | .tok t =>
    if t.alg ≠ .HS256 then .error .badAlgorithm
    else if t.sig ≠ hmacSig key t.alg t.payload t.iat t.exp then .error .invalidSignature
    else if t.exp ≤ now / 1000 then .error .expired
    else .ok t.payload

/-- The `session` cookie as written by `cookies().set`. -/
structure Cookie where
  value : TokenWire
  expiresAttr : Nat
  httpOnly : Bool
  secure : Bool
  sameSiteLax : Bool


/-- The request's cookie jar, holding at most one `session` cookie. -/
structure CookieJar where
  session : Option Cookie


/-- Cookie attributes used by both `setSession` and `updateSession`. -/
def mkSessionCookie (w : TokenWire) (expiresAttr : Nat) : Cookie :=
  { value := w, expiresAttr := expiresAttr
    httpOnly := true, secure := true, sameSiteLax := true }

/-- `getSession` (session.ts:44): absent cookie yields `null`; otherwise the
raw `verifyToken` result is returned with no try/catch, so a verification
error propagates to the caller (hence the `Except`). -/
def getSession (key : String) (now : Nat) (jar : CookieJar) :
    Except JwtError (Option SessionData) :=
  match jar.session with
  | none => .ok none
  | some c => (verifyToken key now c.value).map some

/-- `setSession` (session.ts:67): `expires = now + 24h`, sign, write cookie
with that expiry. -/
def setSession (key : String) (now : Nat) (u : UserData) (jar : CookieJar) :
    CookieJar :=
  let expires := now + 24 * 60 * 60 * 1000
  let session : SessionData := { toUserData := u, expires := expires }
  let tok := signToken key now session
  { jar with session := some (mkSessionCookie (.tok tok) expires) }

/-- `updateSession` (session.ts:52): reads the current session (errors
propagate); if absent, falls through to `setSession`; if present, re-signs
with the caller's fields but the existing `expires`, and re-writes the cookie
with that original expiry. -/
def updateSession (key : String) (now : Nat) (u : UserData) (jar : CookieJar) :
    Except JwtError CookieJar :=
  match getSession key now jar with
  | .error e => .error e
  | .ok none => .ok (setSession key now u jar)
  | .ok (some s) =>
    let session : SessionData := { toUserData := u, expires := s.expires }
    let tok := signToken key now session
    .ok { jar with session := some (mkSessionCookie (.tok tok) s.expires) }

/-- Payload stored in the jar's session cookie, when it is a parseable token. -/
def storedPayload (jar : CookieJar) : Option SessionData :=
  match jar.session with
  | some c =>
    match c.value with
    | .tok t => some t.payload
    | .malformed => none
  | none => none

/-- `expires` attribute of the stored session cookie. -/
def storedExpiresAttr (jar : CookieJar) : Option Nat :=
  jar.session.map Cookie.expiresAttr

/-! ## Database rows (Prisma models used by the auth layer) -/

/-- Prisma `User` row (fields the auth layer touches). -/
structure User where
  id : String
  email : String
  name : Option String
  passwordHash : Option String
  deletedAt : Option Nat


/-- Prisma `Team` row. -/
structure Team where
  id : String
  name : String


/-- Prisma `TeamMember` row. -/
structure TeamMember where
  userId : String
  teamId : String
  role : UserRole


/-- Prisma `Invitation` row. -/
structure Invitation where
  id : String
  teamId : String
  email : String
  role : UserRole
  invitedBy : String
  status : InvitationStatus


/-- Prisma `ActivityLog` row (fields `logActivity` writes). -/
structure ActivityLog where
  teamId : String
  userId : String
  action : ActivityType
  ipAddress : String


/-- The relational store, as lists of rows in insertion order;
`findFirst` is first match in that order. -/
structure DB where
  users : List User
  teams : List Team
  teamMembers : List TeamMember
  invitations : List Invitation
  activityLogs : List ActivityLog


/-- `prisma.user.findFirst({ where: { id } })` — the lookup used by
`validatedActionWithUser` and `withAuth`: the predicate filters on `id`
only (no `deletedAt` condition). -/
def DB.findUserById (db : DB) (uid : String) : Option User :=
  db.users.find? (fun u => u.id == uid)

/-- `prisma.user.findFirst({ where: { email, deletedAt: null } })` — the
lookup used by `signIn` and `signUp`: filters on email and not-deleted. -/
def DB.findUserByEmailNotDeleted (db : DB) (email : String) : Option User :=
  db.users.find? (fun u => u.email == email && u.deletedAt == none)

/-- `prisma.team.findFirst({ where: { id } })`. -/
def DB.findTeamById (db : DB) (tid : String) : Option Team :=
  db.teams.find? (fun t => t.id == tid)

/-- `prisma.invitation.findFirst({ where: { id, email, status: PENDING } })`. -/
def DB.findPendingInvitation (db : DB) (inviteId email : String) : Option Invitation :=
  db.invitations.find?
    (fun i => i.id == inviteId && i.email == email && i.status == InvitationStatus.PENDING)

/-! ## Request context and guard outcomes -/

/-- Submitted `FormData`, as key/value pairs. -/
abbrev FormData := List (String × String)

/-- `formData.get(k)`: first value under `k`, or `null`. -/
def formGet (fd : FormData) (k : String) : Option String :=
  (fd.find? (fun p => p.1 == k)).map Prod.snd

/-- Result of `schema.safeParse`: typed data on success; on failure zod
guarantees at least one issue, so the first message is a separate field
(`result.error.errors[0].message`). -/
inductive ParseResult (α : Type) where
  | success (data : α)
  | failure (firstMessage : String) (rest : List String)


/-- A zod schema as the guards consume it: applied to
`Object.fromEntries(formData)`. -/
abbrev Schema (α : Type) := FormData → ParseResult α

/-- An exception escaping a guard: either a jose verification error
propagating out of `getSession`, or a `throw new Error(msg)`. -/
inductive ThrownError where
  | jwt (e : JwtError)
  | error (msg : String)


/-- Everything a guard invocation can do, as seen by its caller: throw,
trigger a Next.js redirect, return the structured `{error}` object, or
return the wrapped action's own value. -/
inductive GuardOutcome (T : Type) where
  | thrown (e : ThrownError)
  | redirected (path : String)
  | errorResult (msg : String)
  | value (t : T)


/-- Ambient request state threaded through the embedded handlers: the signing
secret, the current time (ms), the request's cookie jar, the store, and the
id-generation counter standing in for Prisma's id generator. -/
structure Ctx where
  key : String
  now : Nat
  jar : CookieJar
  db : DB
  nextId : Nat


/-! ## The three guards (`lib/auth/middleware.ts`) -/

/-- `validatedAction` (middleware.ts:18): parse; on failure return
`{error: result.error.errors[0].message}` (no throw); on success invoke the
action with `(result.data, formData)`.  The unused `prevState` parameter is
omitted. -/
def validatedAction {α T : Type} (schema : Schema α)
    (action : α → FormData → T) (formData : FormData) : GuardOutcome T :=
  match schema formData with
  | .failure first _ => .errorResult first
  | .success data => .value (action data formData)

/-- `validatedActionWithUser` (middleware.ts:38): resolve the session (a
verification error propagates); absent session throws
"User is not authenticated"; then `prisma.user.findFirst({where:{id}})`,
missing user throws "User not found"; only then parse, and on success invoke
the action with `(data, formData, user)`. -/
def validatedActionWithUser {α T : Type} (ctx : Ctx) (schema : Schema α)
    (action : α → FormData → User → T) (formData : FormData) : GuardOutcome T :=
  match getSession ctx.key ctx.now ctx.jar with
  | .error e => .thrown (.jwt e)
  | .ok none => .thrown (.error "User is not authenticated")
  | .ok (some session) =>
    match ctx.db.findUserById session.userId with
    | none => .thrown (.error "User not found")
    | some user =>
      match schema formData with
      | .failure first _ => .errorResult first
      | .success data => .value (action data formData user)

/-- Context handed to a `withAuth` action. -/
structure AuthData where
  user : User
  team : Team
  userRole : UserRole


/-- `withAuth` (middleware.ts:75): resolve the session (a verification error
propagates); absent session redirects to `/sign-in`; otherwise fetch user and
team by id (a `Promise.all` join — deterministic, modelled sequentially); if
either is missing redirect to `/sign-in`; else invoke the action with
`(formData, {user, team, userRole: session.userRole})`. -/
def withAuth {T : Type} (ctx : Ctx) (action : FormData → AuthData → T)
    (formData : FormData) : GuardOutcome T :=
  match getSession ctx.key ctx.now ctx.jar with
  | .error e => .thrown (.jwt e)
  | .ok none => .redirected "/sign-in"
  | .ok (some session) =>
    match ctx.db.findUserById session.userId, ctx.db.findTeamById session.teamId with
    | some user, some team =>
      .value (action formData { user := user, team := team, userRole := session.userRole })
    | _, _ => .redirected "/sign-in"

/-! ## Server actions (`app/(login)/actions.ts`) -/

/-- `cookies().delete("session")` applied to a context. -/
def clearCookie (st : Ctx) : Ctx :=
  { st with jar := { session := none } }

/-- Append one activity-log row to a context's store
(`prisma.activityLog.create`). -/
def appendLog (st : Ctx) (row : ActivityLog) : Ctx :=
  { st with db := { st.db with activityLogs := st.db.activityLogs ++ [row] } }

/-- `logActivity` (actions.ts): reads the session (a verification error
propagates); with no session it logs to the console and returns without
writing a row; otherwise appends one `ActivityLog` row with the session's
team and user ids and `ipAddress ?? ""`. -/
def logActivity (type : ActivityType) (ipAddress : Option String) (st : Ctx) :
    Except JwtError Ctx :=
  match getSession st.key st.now st.jar with
  | .error e => .error e
  | .ok none => .ok st
  | .ok (some s) =>
    .ok (appendLog st { teamId := s.teamId, userId := s.userId, action := type
                        ipAddress := ipAddress.getD "" })

/-- `signOut` (actions.ts:206): `await logActivity(SIGN_OUT)` then
`cookies().delete("session")`; an error from `logActivity` propagates before
the cookie is touched. -/
def signOut (st : Ctx) : Except JwtError Ctx :=
  match logActivity .SIGN_OUT none st with
  | .error e => .error e
  | .ok st₁ => .ok { st₁ with jar := { session := none } }

/-- Parsed `signUpSchema` data: `{ email, password, inviteId? }`. -/
structure SignUpData where
  email : String
  password : String
  inviteId : Option String


/-- The bcrypt capability `hash(plain, SALT_ROUNDS)`, modelled as an opaque
deterministic tagging; no claim depends on its value. -/
def hashPassword (password : String) : String :=
  "bcrypt$" ++ password

/-- `prisma.user.create({ data: { email, passwordHash } })`: appends a fresh
row with a generated id; other columns take their defaults. -/
def createUser (st : Ctx) (email passwordHash : String) : User × Ctx :=
  let u : User := { id := "id" ++ toString st.nextId, email := email
                    name := none, passwordHash := some passwordHash, deletedAt := none }
  (u, { st with nextId := st.nextId + 1
                db := { st.db with users := st.db.users ++ [u] } })

/-- `prisma.team.create({ data: { name } })`. -/
def createTeam (st : Ctx) (name : String) : Team × Ctx :=
  let t : Team := { id := "id" ++ toString st.nextId, name := name }
  (t, { st with nextId := st.nextId + 1
                db := { st.db with teams := st.db.teams ++ [t] } })

/-- `prisma.teamMember.create({ data: { userId, teamId, role } })`. -/
def createTeamMember (st : Ctx) (userId teamId : String) (role : UserRole) : Ctx :=
  { st with db := { st.db with teamMembers := st.db.teamMembers ++
      [{ userId := userId, teamId := teamId, role := role }] } }

/-- `prisma.invitation.update({ where: { id }, data: { status } })`. -/
def setInvitationStatus (st : Ctx) (invId : String) (status : InvitationStatus) : Ctx :=
  let upd := fun (i : Invitation) => if i.id == invId then { i with status := status } else i
  { st with db := { st.db with invitations := st.db.invitations.map upd } }

/-- What the `signUp` action body evaluates to: a structured `{error}`,
a redirect to `/dashboard`, or a checkout-session handoff for
`(team, priceId)` when `formData.get("redirect") === "checkout"`. -/
inductive SignUpOutcome where
  | errorResult (msg : String)
  | redirected (path : String)
  | checkout (teamId : String) (priceId : Option String)


/-- The state after `await setSession({...})` inside an action: only the
cookie jar changes. -/
def withFreshSession (st : Ctx) (u : UserData) : Ctx :=
  { st with jar := setSession st.key st.now u st.jar }

/-- Shared tail of `signUp`: the `redirect === "checkout"` check, then
`redirect("/dashboard")`. -/
def signUpFinish (formData : FormData) (teamId : String) : SignUpOutcome :=
  if formGet formData "redirect" == some "checkout" then
    .checkout teamId (formGet formData "priceId")
  else
    .redirected "/dashboard"

/-- The shared tail of `signUp` after the team membership is in place
(actions.ts:188-204): `setSession({userId, teamId, userRole: ADMIN})`, the
deferred `EMAIL_SIGN_UP` log, then the checkout/redirect finish. -/
def signUpSessionTail (createdUserId teamId : String) (formData : FormData)
    (st₄ : Ctx) : Except JwtError (SignUpOutcome × Ctx) :=
  let newUserData : UserData :=
    { userId := createdUserId, teamId := teamId, userRole := .ADMIN }
  let st₅ := withFreshSession st₄ newUserData
  match logActivity .EMAIL_SIGN_UP none st₅ with
  | .error e => .error e
  | .ok st₆ => .ok (signUpFinish formData teamId, st₆)

/-- The `inviteId`-present branch of `signUp` (actions.ts:137-167 plus the
shared tail): look up a pending invitation for this email; if none, the
structured "Invalid or expired invitation." result; otherwise create the
`TeamMember` row with **the invitation's role**, mark the invitation
accepted, log `ACCEPT_INVITATION`, then `setSession` with `userRole` fixed
to ADMIN, log `EMAIL_SIGN_UP`, and finish. -/
def signUpInviteBranch (createdUserId email : String) (formData : FormData)
    (inviteId : String) (st₁ : Ctx) : Except JwtError (SignUpOutcome × Ctx) :=
  match st₁.db.findPendingInvitation inviteId email with
  | none => .ok (.errorResult "Invalid or expired invitation.", st₁)
  | some invitation =>
    let st₂ := createTeamMember st₁ createdUserId invitation.teamId invitation.role
    let st₃ := setInvitationStatus st₂ invitation.id .ACCEPTED
    match logActivity .ACCEPT_INVITATION none st₃ with
    | .error e => .error e
    | .ok st₄ => signUpSessionTail createdUserId invitation.teamId formData st₄

/-- The `signUp` action body (actions.ts:112), after `signUpSchema`
validation.  Sequential linearization of the async body: each
`logActivity(...)` promise is evaluated at the program point where it is
created (it runs to its first true suspension immediately), so the
`ACCEPT_INVITATION`/`CREATE_TEAM` log reads the pre-`setSession` cookie and
the `EMAIL_SIGN_UP` log reads the fresh session.  The claims proved below
do not depend on the contents of the activity log.  `invitation.team.id`
equals `invitation.teamId` by the include's foreign key. -/
def signUp (data : SignUpData) (formData : FormData) (st : Ctx) :
    Except JwtError (SignUpOutcome × Ctx) :=
  match st.db.findUserByEmailNotDeleted data.email with
  | some _ => .ok (.errorResult "Failed to create user. User already exists.", st)
  | none =>
    let passwordHash := hashPassword data.password
    let (createdUser, st₁) := createUser st data.email passwordHash
    match data.inviteId with
    | some inviteId => signUpInviteBranch createdUser.id data.email formData inviteId st₁
    | none =>
      let (newTeam, st₂) := createTeam st₁ "Personal Account"
      let st₃ := createTeamMember st₂ createdUser.id newTeam.id .ADMIN
      match logActivity .CREATE_TEAM none st₃ with
      | .error e => .error e
      | .ok st₄ => signUpSessionTail createdUser.id newTeam.id formData st₄

/-! ## Concrete values used by counterexamples and witnesses -/

def demoKey : String := "k"

def demoNow : Nat := 0

def demoUser : UserData := { userId := "u1", teamId := "t1", userRole := .MEMBER }

def demoSession : SessionData := { toUserData := demoUser, expires := demoNow + 86400000 }

def demoTok : JWT := signToken demoKey demoNow demoSession

/-- `demoTok` with one signature byte corrupted. -/
def corruptTok : JWT := { demoTok with sig := demoTok.sig + 1 }

def corruptJar : CookieJar :=
  { session := some (mkSessionCookie (.tok corruptTok) (demoNow + 86400000)) }

/-- The jar right after `setSession demoKey demoNow demoUser`. -/
def validJar : CookieJar := setSession demoKey demoNow demoUser { session := none }

/-- A token whose header declares HS512, MAC computed under that algorithm. -/
def hs512Tok : JWT :=
  { alg := .HS512, payload := demoSession, iat := demoNow / 1000
    exp := demoNow / 1000 + 86400
    sig := hmacSig demoKey .HS512 demoSession (demoNow / 1000) (demoNow / 1000 + 86400) }

def demoTeam : Team := { id := "t1", name := "Personal Account" }

def liveUser : User :=
  { id := "u1", email := "a@ex.com", name := none
    passwordHash := some (hashPassword "pw123456"), deletedAt := none }

/-- Same identity as `liveUser` but soft-deleted. -/
def deletedUser : User := { liveUser with deletedAt := some 1 }

def emptyDB : DB :=
  { users := [], teams := [], teamMembers := [], invitations := [], activityLogs := [] }

def liveDB : DB := { emptyDB with users := [liveUser], teams := [demoTeam] }

def deletedDB : DB := { emptyDB with users := [deletedUser], teams := [demoTeam] }

/-- Teams table empty: the user lookup succeeds but the team lookup fails. -/
def noTeamDB : DB := { emptyDB with users := [liveUser] }

def liveCtx : Ctx :=
  { key := demoKey, now := demoNow, jar := validJar, db := liveDB, nextId := 0 }

def deletedCtx : Ctx := { liveCtx with db := deletedDB }

def noTeamCtx : Ctx := { liveCtx with db := noTeamDB }

def noSessionCtx : Ctx :=
  { key := demoKey, now := demoNow, jar := { session := none }, db := emptyDB, nextId := 0 }

/-- A schema that accepts any input. -/
def acceptSchema : Schema Unit := fun _ => .success ()

/-- A small concrete schema: requires an `email` field containing `@`. -/
def emailSchema : Schema String := fun fd =>
  match formGet fd "email" with
  | none => .failure "Required" []
  | some e => if e.data.contains '@' then .success e else .failure "Invalid email" []

def demoInvitation : Invitation :=
  { id := "inv1", teamId := "t1", email := "b@ex.com", role := .MEMBER
    invitedBy := "u1", status := .PENDING }

def inviteDB : DB := { emptyDB with teams := [demoTeam], invitations := [demoInvitation] }

def inviteCtx : Ctx :=
  { key := demoKey, now := demoNow, jar := { session := none }, db := inviteDB, nextId := 7 }

def demoSignUpData : SignUpData :=
  { email := "b@ex.com", password := "pw123456", inviteId := some "inv1" }

def w3user2 : UserData := { userId := "u2", teamId := "t2", userRole := .ADMIN }

/-- `validJar` refreshed one hour after creation with different fields. -/
def w3jar1 : CookieJar :=
  (updateSession demoKey (demoNow + 3600000) w3user2 validJar).toOption.getD { session := none }

/-- `w3jar1` refreshed another hour later, back to the original fields. -/
def w3jar2 : CookieJar :=
  (updateSession demoKey (demoNow + 7200000) demoUser w3jar1).toOption.getD { session := none }

/-! ## Theorems -/

set_option maxRecDepth 8000

/-- A token signed at time `now` verifies at any time `now₂` before the
envelope expiration (one day, at seconds granularity) and yields the signed
payload unchanged. -/
theorem verifyToken_signToken_ok (key : String) (now now₂ : Nat) (p : SessionData)
    (h : now₂ / 1000 < now / 1000 + 86400) :
    verifyToken key now₂ (.tok (signToken key now p)) = .ok p := by
  have h' : ¬ (now / 1000 + 86400 ≤ now₂ / 1000) := by omega
  simp [verifyToken, signToken, h']

/-- Reading the session at time `now₂` (before the envelope expiry) after
`setSession` at time `now` yields the written payload. -/
theorem getSession_setSession (key : String) (now now₂ : Nat) (u : UserData)
    (jar : CookieJar) (h : now₂ / 1000 < now / 1000 + 86400) :
    getSession key now₂ (setSession key now u jar) =
      .ok (some { toUserData := u, expires := now + 24 * 60 * 60 * 1000 }) := by
  show (verifyToken key now₂ (.tok (signToken key now
      { toUserData := u, expires := now + 24 * 60 * 60 * 1000 }))).map some = _
  rw [verifyToken_signToken_ok key now now₂ _ h]
  rfl

/-- C4: for all (userId, teamId, userRole) triples, `setSession`
(createSession) followed immediately by `getSession` (getCurrentSession)
returns a payload whose fields equal the arguments and whose `expires` is
exactly 24 hours after issuance. -/
theorem C4_setSession_then_getSession (key : String) (now : Nat) (u : UserData)
    (jar : CookieJar) :
    getSession key now (setSession key now u jar) =
      .ok (some { toUserData := u, expires := now + 24 * 60 * 60 * 1000 }) :=
  getSession_setSession key now now u jar (by omega)

/-- C1 counterexample: a session cookie holding a token whose signature is
corrupted by one byte makes `getSession` propagate the verification error
(a thrown `JOSEError` in the source, `.error` here) instead of returning an
absent session — refuting "getSession never throws for any cookie value". -/
theorem C1_counterexample_decode_error_propagates :
    getSession demoKey demoNow corruptJar = .error .invalidSignature := by rfl

/-- C1 amended: if the cookie is absent `getSession` returns an absent
session, but when the stored token fails verification (corrupted signature,
elapsed envelope expiration, malformed token) the decode error propagates to
the caller as an exception — `getSession` has no catch and does not collapse
decode failures to an absent session. -/
theorem C1_absent_cookie_or_error_propagation (key : String) (now : Nat) (jar : CookieJar) :
    (jar.session = none → getSession key now jar = .ok none) ∧
    (∀ c e, jar.session = some c → verifyToken key now c.value = .error e →
      getSession key now jar = .error e) := by
  constructor
  · intro h
    simp [getSession, h]
  · intro c e hc he
    simp [getSession, hc, he, Except.map]

/-- Witness for C1: the absent-cookie branch and the corrupted-signature
branch, each at a concrete input. -/
theorem C1_witness :
    getSession demoKey demoNow { session := none } = .ok none ∧
    getSession demoKey demoNow corruptJar = .error .invalidSignature :=
  ⟨(C1_absent_cookie_or_error_propagation demoKey demoNow { session := none }).1 rfl,
   (C1_absent_cookie_or_error_propagation demoKey demoNow corruptJar).2
     (mkSessionCookie (.tok corruptTok) (demoNow + 86400000)) .invalidSignature rfl (by rfl)⟩

/-- C8: the codec is pinned to HS256: every signed token's header declares
HS256; verification succeeds only on a structurally valid token whose header
is HS256 and whose MAC recomputes under that algorithm and the configured
secret; a token declaring any other algorithm is rejected outright. -/
theorem C8_algorithm_pinned (key : String) (now : Nat) :
    (∀ p, (signToken key now p).alg = .HS256) ∧
    (∀ (w : TokenWire) (p : SessionData), verifyToken key now w = .ok p →
      ∃ t : JWT, w = .tok t ∧ t.alg = .HS256 ∧
        t.sig = hmacSig key .HS256 t.payload t.iat t.exp ∧ p = t.payload) ∧
    (∀ t : JWT, t.alg ≠ .HS256 → verifyToken key now (.tok t) = .error .badAlgorithm) := by
  refine ⟨fun _ => rfl, ?_, ?_⟩
  · intro w p h
    match w with
    | .malformed => simp [verifyToken] at h
    | .tok t =>
      refine ⟨t, rfl, ?_⟩
      by_cases h1 : t.alg = Alg.HS256
      · by_cases h2 : t.sig = hmacSig key t.alg t.payload t.iat t.exp
        · by_cases h3 : t.exp ≤ now / 1000
          · simp [verifyToken, h1, h2, h3] at h
          · simp [verifyToken, h1, h2, h3] at h
            rw [h1] at h2
            exact ⟨h1, h2, h.symm⟩
        · rw [h1] at h2
          simp [verifyToken, h1, h2] at h
      · simp [verifyToken, h1] at h
  · intro t h
    simp [verifyToken, h]

/-- Witness for C8: a concrete token whose header declares HS512 (with a MAC
computed under HS512) is rejected with the algorithm error. -/
theorem C8_witness :
    verifyToken demoKey demoNow (.tok hs512Tok) = .error .badAlgorithm :=
  (C8_algorithm_pinned demoKey demoNow).2.2 hs512Tok (by decide)

/-- A token signed at `now` fails verification at `now₂` with `Expired` once
the one-day envelope window has elapsed. -/
theorem verifyToken_signToken_expired (key : String) (now now₂ : Nat) (p : SessionData)
    (h : now / 1000 + 86400 ≤ now₂ / 1000) :
    verifyToken key now₂ (.tok (signToken key now p)) = .error .expired := by
  simp [verifyToken, signToken, h]

/-- C3: `updateSession` (refreshSession) with no existing session behaves
exactly as `setSession` (createSession); with an existing session it
re-writes a cookie whose payload carries the caller's fields but the
existing session's `expires`, and whose cookie-expiry attribute equals that
same `expires`; a second refresh on the resulting jar (with different
fields, at a different time) still carries the original `expires`. -/
theorem C3_updateSession_preserves_expiry (key : String) (u u₂ : UserData)
    (now now₂ : Nat) (jar jar₁ jar₂ : CookieJar) :
    (getSession key now jar = .ok none →
      updateSession key now u jar = .ok (setSession key now u jar)) ∧
    (∀ s : SessionData, getSession key now jar = .ok (some s) →
      updateSession key now u jar = .ok jar₁ →
      storedPayload jar₁ = some { toUserData := u, expires := s.expires } ∧
      storedExpiresAttr jar₁ = some s.expires ∧
      (updateSession key now₂ u₂ jar₁ = .ok jar₂ →
        storedPayload jar₂ = some { toUserData := u₂, expires := s.expires } ∧
        storedExpiresAttr jar₂ = some s.expires)) := by
  constructor
  · intro h
    rw [updateSession, h]
  · intro s hs hupd
    rw [updateSession, hs] at hupd
    have hupd' : Except.ok (ε := JwtError) { session := some (mkSessionCookie
        (.tok (signToken key now { toUserData := u, expires := s.expires })) s.expires) } =
        Except.ok jar₁ := hupd
    injection hupd' with h1
    subst h1
    refine ⟨rfl, rfl, ?_⟩
    intro hupd₂
    by_cases hexp : now₂ / 1000 < now / 1000 + 86400
    · have hget : getSession key now₂
          { session := some (mkSessionCookie
            (.tok (signToken key now { toUserData := u, expires := s.expires })) s.expires) } =
          .ok (some { toUserData := u, expires := s.expires }) := by
        show (verifyToken key now₂ (.tok (signToken key now
            { toUserData := u, expires := s.expires }))).map some = _
        rw [verifyToken_signToken_ok key now now₂ _ hexp]
        rfl
      rw [updateSession, hget] at hupd₂
      have hupd₂' : Except.ok (ε := JwtError) { session := some (mkSessionCookie
          (.tok (signToken key now₂ { toUserData := u₂, expires := s.expires })) s.expires) } =
          Except.ok jar₂ := hupd₂
      injection hupd₂' with h2
      subst h2
      exact ⟨rfl, rfl⟩
    · have hexp' : now / 1000 + 86400 ≤ now₂ / 1000 := by omega
      have hget : getSession key now₂
          { session := some (mkSessionCookie
            (.tok (signToken key now { toUserData := u, expires := s.expires })) s.expires) } =
          .error .expired := by
        show (verifyToken key now₂ (.tok (signToken key now
            { toUserData := u, expires := s.expires }))).map some = _
        rw [verifyToken_signToken_expired key now now₂ _ hexp']
        rfl
      rw [updateSession, hget] at hupd₂
      exact Except.noConfusion
        (show Except.error JwtError.expired = Except.ok jar₂ from hupd₂)

/-- Witness for C3: a session created at `demoNow`, refreshed an hour later
with different user fields and again an hour after that with the original
fields, still carries the original `expires = demoNow + 24h` in both the
payload and the cookie-expiry attribute. -/
theorem C3_witness :
    storedPayload w3jar1 = some { userId := "u2", teamId := "t2", userRole := .ADMIN
                                  expires := demoNow + 86400000 } ∧
    storedExpiresAttr w3jar1 = some (demoNow + 86400000) ∧
    storedPayload w3jar2 = some { toUserData := demoUser, expires := demoNow + 86400000 } ∧
    storedExpiresAttr w3jar2 = some (demoNow + 86400000) := by
  have h := (C3_updateSession_preserves_expiry demoKey w3user2 demoUser
      (demoNow + 3600000) (demoNow + 7200000) validJar w3jar1 w3jar2).2
    demoSession (by rfl) (by rfl)
  exact ⟨h.1, h.2.1, (h.2.2 (by rfl)).1, (h.2.2 (by rfl)).2⟩

/-- C5: `validatedActionWithUser` throws exactly when the session cannot be
resolved (a decode error propagates; an absent session throws "User is not
authenticated") or the user lookup finds nothing ("User not found"); schema
validation runs only after both succeed, returning the structured
`{error: first message}` on parse failure; on full success the wrapped
action is invoked with `(parsedInput, rawInput, user)`.  The guard never
redirects. -/
theorem C5_validatedActionWithUser_channels {α T : Type} (ctx : Ctx) (schema : Schema α)
    (action : α → FormData → User → T) (fd : FormData) :
    (∀ e, getSession ctx.key ctx.now ctx.jar = .error e →
      validatedActionWithUser ctx schema action fd = .thrown (.jwt e)) ∧
    (getSession ctx.key ctx.now ctx.jar = .ok none →
      validatedActionWithUser ctx schema action fd =
        .thrown (.error "User is not authenticated")) ∧
    (∀ s, getSession ctx.key ctx.now ctx.jar = .ok (some s) →
      ctx.db.findUserById s.userId = none →
      validatedActionWithUser ctx schema action fd = .thrown (.error "User not found")) ∧
    (∀ s u first rest, getSession ctx.key ctx.now ctx.jar = .ok (some s) →
      ctx.db.findUserById s.userId = some u → schema fd = .failure first rest →
      validatedActionWithUser ctx schema action fd = .errorResult first) ∧
    (∀ s u d, getSession ctx.key ctx.now ctx.jar = .ok (some s) →
      ctx.db.findUserById s.userId = some u → schema fd = .success d →
      validatedActionWithUser ctx schema action fd = .value (action d fd u)) ∧
    (∀ p, validatedActionWithUser ctx schema action fd ≠ .redirected p) := by
  refine ⟨?_, ?_, ?_, ?_, ?_, ?_⟩
  · intro e h
    simp [validatedActionWithUser, h]
  · intro h
    simp [validatedActionWithUser, h]
  · intro s hs hu
    simp [validatedActionWithUser, hs, hu]
  · intro s u first rest hs hu hp
    simp [validatedActionWithUser, hs, hu, hp]
  · intro s u d hs hu hp
    simp [validatedActionWithUser, hs, hu, hp]
  · intro p
    rw [validatedActionWithUser]
    rcases h : getSession ctx.key ctx.now ctx.jar with e | v
    · simp
    · rcases v with _ | s
      · simp
      · rcases hu : ctx.db.findUserById s.userId with _ | u
        · simp [hu]
        · rcases hp : schema fd with d | ⟨first, rest⟩ <;> simp [hu, hp]

/-- Witness for C5: with a valid session for `u1`, a present user row and a
passing schema the wrapped action receives the user; the concrete run
returns the action's value. -/
theorem C5_witness :
    validatedActionWithUser liveCtx acceptSchema (fun _ _ u => u.id) [] = .value "u1" :=
  (C5_validatedActionWithUser_channels liveCtx acceptSchema (fun _ _ u => u.id)
    []).2.2.2.2.1 demoSession liveUser () (by rfl) (by rfl) rfl

/-- C6: `withAuth` redirects to `/sign-in` when the session is absent, and
when either the user or the team lookup (an all-or-nothing join) finds
nothing — including a found user with a missing team; the wrapped action is
invoked only with both a user and a team present, together with the
session's role. -/
theorem C6_withAuth_channels {T : Type} (ctx : Ctx) (action : FormData → AuthData → T)
    (fd : FormData) :
    (getSession ctx.key ctx.now ctx.jar = .ok none →
      withAuth ctx action fd = .redirected "/sign-in") ∧
    (∀ s, getSession ctx.key ctx.now ctx.jar = .ok (some s) →
      (ctx.db.findUserById s.userId = none ∨ ctx.db.findTeamById s.teamId = none) →
      withAuth ctx action fd = .redirected "/sign-in") ∧
    (∀ s u t, getSession ctx.key ctx.now ctx.jar = .ok (some s) →
      ctx.db.findUserById s.userId = some u → ctx.db.findTeamById s.teamId = some t →
      withAuth ctx action fd =
        .value (action fd { user := u, team := t, userRole := s.userRole })) := by
  refine ⟨?_, ?_, ?_⟩
  · intro h
    simp [withAuth, h]
  · intro s hs hmiss
    rw [withAuth, hs]
    rcases hmiss with hu | ht
    · simp [hu]
    · rcases hu : ctx.db.findUserById s.userId with _ | u <;> simp [ht]
  · intro s u t hs hu ht
    simp [withAuth, hs, hu, ht]

/-- Witness for C6: a valid session whose user row exists but whose team row
does not — the guard still redirects rather than invoking the action with a
partial context. -/
theorem C6_witness :
    withAuth noTeamCtx (fun _ a => a.user.id) [] = .redirected "/sign-in" :=
  (C6_withAuth_channels noTeamCtx (fun _ a => a.user.id) []).2.1
    demoSession (by rfl) (Or.inr (by rfl))

/-- C7: `validatedAction`, when the parse fails, returns the structured
`{error: first validation message}` — identically for every wrapped handler,
so the handler is never invoked — and it never throws and never redirects;
when the parse succeeds it invokes the handler with the parsed data and the
raw form input. -/
theorem C7_validatedAction_contract {α T : Type} (schema : Schema α)
    (action : α → FormData → T) (fd : FormData) :
    (∀ first rest, schema fd = .failure first rest →
      validatedAction schema action fd = .errorResult first ∧
      ∀ action₂ : α → FormData → T,
        validatedAction schema action₂ fd = validatedAction schema action fd) ∧
    (∀ d, schema fd = .success d →
      validatedAction schema action fd = .value (action d fd)) ∧
    (∀ e, validatedAction schema action fd ≠ .thrown e) ∧
    (∀ p, validatedAction schema action fd ≠ .redirected p) := by
  refine ⟨?_, ?_, ?_, ?_⟩
  · intro first rest hp
    exact ⟨by simp [validatedAction, hp], fun action₂ => by simp [validatedAction, hp]⟩
  · intro d hp
    simp [validatedAction, hp]
  · intro e
    rw [validatedAction]
    rcases hp : schema fd with d | ⟨first, rest⟩ <;> simp
  · intro p
    rw [validatedAction]
    rcases hp : schema fd with d | ⟨first, rest⟩ <;> simp

/-- Witness for C7: the concrete email schema rejects an address without `@`
with its first error message, and the result does not depend on the wrapped
handler. -/
theorem C7_witness :
    validatedAction emailSchema (fun e _ => e) [("email", "nodomain")] =
      .errorResult "Invalid email" :=
  ((C7_validatedAction_contract emailSchema (fun e _ => e)
    [("email", "nodomain")]).1 "Invalid email" [] (by rfl)).1

/-- C2 counterexample: `deletedCtx` holds a soft-deleted user row
(`deletedAt = some 1`) and a valid session for that user; both
`validatedActionWithUser` and `withAuth` look the user up by id with no
"not deleted" filter, so the request reaches the wrapped action in each
guard — refuting the claim that every guard's lookup excludes deleted
rows. -/
theorem C2_counterexample_deleted_user_reaches_action :
    deletedUser.deletedAt = some 1 ∧
    validatedActionWithUser deletedCtx acceptSchema (fun _ _ u => u.id) [] = .value "u1" ∧
    withAuth deletedCtx (fun _ a => a.user.id) [] = .value "u1" :=
  ⟨rfl, by rfl, by rfl⟩

/-- C2 amended: only the sign-in/sign-up lookups filter on "not deleted"
(`findUserByEmailNotDeleted`); the guards' lookup (`findUserById`) filters on
id alone, so whenever it returns a user — soft-deleted or not — the guard
proceeds: with a valid session and a passing schema, a request for a
soft-deleted user is handed to the wrapped action. -/
theorem C2_guards_do_not_filter_deleted {α T : Type} (ctx : Ctx) (schema : Schema α)
    (action : α → FormData → User → T) (fd : FormData) (s : SessionData) (u : User) (d : α)
    (hs : getSession ctx.key ctx.now ctx.jar = .ok (some s))
    (hu : ctx.db.findUserById s.userId = some u)
    (hdel : u.deletedAt ≠ none)
    (hp : schema fd = .success d) :
    validatedActionWithUser ctx schema action fd = .value (action d fd u) := by
  simp [validatedActionWithUser, hs, hu, hp]

/-- Witness for C2: the amended statement at the concrete soft-deleted
context. -/
theorem C2_witness :
    validatedActionWithUser deletedCtx acceptSchema (fun _ _ u => u.email) [] =
      .value "a@ex.com" :=
  C2_guards_do_not_filter_deleted deletedCtx acceptSchema (fun _ _ u => u.email) []
    demoSession deletedUser () (by rfl) (by rfl) (by decide) rfl

/-- C9 counterexample: with no session cookie at all, `signOut` succeeds,
the cookie stays cleared, and **no** `SIGN_OUT` activity row is appended
(`logActivity` returns early on an absent session) — refuting "appends
exactly one SIGN_OUT row even when no session existed". -/
theorem C9_counterexample_no_row_without_session :
    signOut noSessionCtx = .ok noSessionCtx ∧
    noSessionCtx.db.activityLogs = [] := by
  exact ⟨by rfl, rfl⟩

/-- C9 amended: `signOut` always clears the session cookie when it completes;
it appends exactly one `SIGN_OUT` row only when a session is resolvable, and
appends none when the session is absent; a session decode error propagates
(before the cookie is cleared). -/
theorem C9_signOut_behavior (st : Ctx) :
    (getSession st.key st.now st.jar = .ok none → signOut st = .ok (clearCookie st)) ∧
    (∀ s, getSession st.key st.now st.jar = .ok (some s) →
      signOut st = .ok (clearCookie (appendLog st
        { teamId := s.teamId, userId := s.userId, action := .SIGN_OUT, ipAddress := "" }))) ∧
    (∀ e, getSession st.key st.now st.jar = .error e → signOut st = .error e) := by
  refine ⟨?_, ?_, ?_⟩
  · intro h
    simp [signOut, logActivity, h, clearCookie]
  · intro s h
    simp [signOut, logActivity, h, clearCookie, appendLog]
  · intro e h
    simp [signOut, logActivity, h]

/-- Witness for C9: at `liveCtx` (valid session) sign-out clears the cookie
and appends the one SIGN_OUT row; at `noSessionCtx` it is a no-op beyond the
idempotent cookie clear. -/
theorem C9_witness :
    signOut liveCtx = .ok (clearCookie (appendLog liveCtx
      { teamId := "t1", userId := "u1", action := .SIGN_OUT, ipAddress := "" })) ∧
    signOut noSessionCtx = .ok (clearCookie noSessionCtx) :=
  ⟨(C9_signOut_behavior liveCtx).2.1 demoSession (by rfl),
   (C9_signOut_behavior noSessionCtx).1 (by rfl)⟩

/-! ### State-shape helper lemmas for the signUp proof -/

theorem appendLog_key (st : Ctx) (row : ActivityLog) : (appendLog st row).key = st.key := rfl

theorem appendLog_now (st : Ctx) (row : ActivityLog) : (appendLog st row).now = st.now := rfl

theorem appendLog_jar (st : Ctx) (row : ActivityLog) : (appendLog st row).jar = st.jar := rfl

theorem appendLog_teamMembers (st : Ctx) (row : ActivityLog) :
    (appendLog st row).db.teamMembers = st.db.teamMembers := rfl

theorem withFreshSession_key (st : Ctx) (u : UserData) :
    (withFreshSession st u).key = st.key := rfl

theorem withFreshSession_now (st : Ctx) (u : UserData) :
    (withFreshSession st u).now = st.now := rfl

theorem withFreshSession_jar (st : Ctx) (u : UserData) :
    (withFreshSession st u).jar = setSession st.key st.now u st.jar := rfl

theorem withFreshSession_teamMembers (st : Ctx) (u : UserData) :
    (withFreshSession st u).db.teamMembers = st.db.teamMembers := rfl

theorem storedPayload_setSession (key : String) (now : Nat) (u : UserData) (jar : CookieJar) :
    storedPayload (setSession key now u jar) =
      some { toUserData := u, expires := now + 24 * 60 * 60 * 1000 } := rfl

/-- The membership-creation and invitation-acceptance writes do not touch
the cookie jar, the clock or the secret. -/
theorem getSession_inviteStep (st : Ctx) (u t : String) (r : UserRole) (i : String)
    (s : InvitationStatus) :
    getSession (setInvitationStatus (createTeamMember st u t r) i s).key
      (setInvitationStatus (createTeamMember st u t r) i s).now
      (setInvitationStatus (createTeamMember st u t r) i s).jar =
    getSession st.key st.now st.jar := rfl

theorem inviteStep_teamMembers (st : Ctx) (u t : String) (r : UserRole) (i : String)
    (s : InvitationStatus) :
    (setInvitationStatus (createTeamMember st u t r) i s).db.teamMembers =
      st.db.teamMembers ++ [{ userId := u, teamId := t, role := r }] := rfl

theorem inviteStep_now (st : Ctx) (u t : String) (r : UserRole) (i : String)
    (s : InvitationStatus) :
    (setInvitationStatus (createTeamMember st u t r) i s).now = st.now := rfl

/-- Reading the session right after `setSession` inside the same request
always yields the just-written payload (the envelope expiry is a day away). -/
theorem getSession_withFreshSession (st : Ctx) (u : UserData) :
    getSession (withFreshSession st u).key (withFreshSession st u).now
      (withFreshSession st u).jar =
    .ok (some { toUserData := u, expires := st.now + 24 * 60 * 60 * 1000 }) := by
  rw [withFreshSession_key, withFreshSession_now, withFreshSession_jar]
  exact getSession_setSession st.key st.now st.now u st.jar (by omega)

/-- `logActivity` is the identity on the context when the session resolves
to absent, appends exactly one row when it resolves to a session, and
propagates a decode error. -/
theorem logActivity_eq (type : ActivityType) (ip : Option String) (st : Ctx) :
    (getSession st.key st.now st.jar = .ok none → logActivity type ip st = .ok st) ∧
    (∀ s, getSession st.key st.now st.jar = .ok (some s) →
      logActivity type ip st = .ok (appendLog st
        { teamId := s.teamId, userId := s.userId, action := type, ipAddress := ip.getD "" })) ∧
    (∀ e, getSession st.key st.now st.jar = .error e → logActivity type ip st = .error e) := by
  refine ⟨?_, ?_, ?_⟩
  · intro h
    simp [logActivity, h]
  · intro s h
    simp [logActivity, h]
  · intro e h
    simp [logActivity, h]

/-- The shared sign-up tail always succeeds — the session it just wrote
verifies — and appends the `EMAIL_SIGN_UP` row to the fresh-session state. -/
theorem signUpSessionTail_eq (uid tid : String) (fd : FormData) (st₄ : Ctx) :
    signUpSessionTail uid tid fd st₄ =
      .ok (signUpFinish fd tid, appendLog (withFreshSession st₄ ⟨uid, tid, .ADMIN⟩)
        ⟨tid, uid, .EMAIL_SIGN_UP, ""⟩) := by
  simp only [signUpSessionTail]
  rw [(logActivity_eq .EMAIL_SIGN_UP none _).2.1 _ (getSession_withFreshSession st₄ _)]
  rfl

/-- Symbolic execution of the invite branch of `signUp`: it completes with
the shared finish step, the created `TeamMember` row carries the
invitation's role, and the freshly written session carries
`userRole = ADMIN`. -/
theorem signUpInviteBranch_steps (uid email : String) (fd : FormData) (inviteId : String)
    (st₁ : Ctx) (inv : Invitation) (v : Option SessionData)
    (hfind : st₁.db.findPendingInvitation inviteId email = some inv)
    (hses : getSession st₁.key st₁.now st₁.jar = .ok v) :
    ∃ st', signUpInviteBranch uid email fd inviteId st₁ =
        .ok (signUpFinish fd inv.teamId, st') ∧
      st'.db.teamMembers = st₁.db.teamMembers ++
        [{ userId := uid, teamId := inv.teamId, role := inv.role }] ∧
      storedPayload st'.jar =
        some ⟨⟨uid, inv.teamId, .ADMIN⟩, st₁.now + 24 * 60 * 60 * 1000⟩ := by
  have hses3 := (getSession_inviteStep st₁ uid inv.teamId inv.role inv.id
    InvitationStatus.ACCEPTED).trans hses
  rcases v with _ | s
  · refine ⟨appendLog (withFreshSession (setInvitationStatus
        (createTeamMember st₁ uid inv.teamId inv.role) inv.id .ACCEPTED)
        ⟨uid, inv.teamId, .ADMIN⟩) ⟨inv.teamId, uid, .EMAIL_SIGN_UP, ""⟩, ?_, ?_, ?_⟩
    · rw [signUpInviteBranch, hfind]
      simp only
      rw [(logActivity_eq .ACCEPT_INVITATION none _).1 hses3]
      simp only
      rw [signUpSessionTail_eq]
    · rw [appendLog_teamMembers, withFreshSession_teamMembers, inviteStep_teamMembers]
    · rw [appendLog_jar, withFreshSession_jar, storedPayload_setSession, inviteStep_now]
  · refine ⟨appendLog (withFreshSession (appendLog (setInvitationStatus
        (createTeamMember st₁ uid inv.teamId inv.role) inv.id .ACCEPTED)
        ⟨s.teamId, s.userId, .ACCEPT_INVITATION, ""⟩)
        ⟨uid, inv.teamId, .ADMIN⟩) ⟨inv.teamId, uid, .EMAIL_SIGN_UP, ""⟩, ?_, ?_, ?_⟩
    · rw [signUpInviteBranch, hfind]
      simp only
      rw [(logActivity_eq .ACCEPT_INVITATION none _).2.1 _ hses3]
      simp only
      rw [signUpSessionTail_eq]
      rfl
    · rw [appendLog_teamMembers, withFreshSession_teamMembers, appendLog_teamMembers,
        inviteStep_teamMembers]
    · rw [appendLog_jar, withFreshSession_jar, appendLog_key, appendLog_now,
        storedPayload_setSession, inviteStep_now]

/-- C10: a sign-up that consumes a valid pending invitation creates the
`TeamMember` row with the invitation's role, but writes the session cookie
with `userRole` fixed to ADMIN; for a MEMBER invitation the session's role
claim therefore disagrees with the stored membership role immediately after
sign-up. -/
theorem C10_signUp_invitation_role_mismatch (st : Ctx) (data : SignUpData)
    (fd : FormData) (inviteId : String) (inv : Invitation) (v : Option SessionData)
    (hemail : st.db.findUserByEmailNotDeleted data.email = none)
    (hinv : data.inviteId = some inviteId)
    (hfind : st.db.findPendingInvitation inviteId data.email = some inv)
    (hses : getSession st.key st.now st.jar = .ok v) :
    ∃ st', signUp data fd st = .ok (signUpFinish fd inv.teamId, st') ∧
      st'.db.teamMembers = st.db.teamMembers ++
        [{ userId := "id" ++ toString st.nextId, teamId := inv.teamId, role := inv.role }] ∧
      storedPayload st'.jar =
        some ⟨⟨"id" ++ toString st.nextId, inv.teamId, .ADMIN⟩, st.now + 24 * 60 * 60 * 1000⟩ ∧
      (inv.role = .MEMBER →
        (storedPayload st'.jar).map (fun p => p.userRole) ≠ some inv.role) := by
  obtain ⟨st', heq, h1, h2⟩ := signUpInviteBranch_steps ("id" ++ toString st.nextId)
    data.email fd inviteId (createUser st data.email (hashPassword data.password)).2
    inv v hfind hses
  refine ⟨st', ?_, h1, h2, ?_⟩
  · rw [signUp]
    rw [hemail, hinv]
    simp only [createUser]
    exact heq
  · intro hrole
    rw [h2, hrole]
    simp

/-- Witness for C10: the concrete sign-up against the pending MEMBER
invitation succeeds, stores a MEMBER membership row, and writes an ADMIN
session role — the two disagree. -/
theorem C10_witness :
    ∃ st', signUp demoSignUpData [] inviteCtx =
        .ok (signUpFinish [] demoInvitation.teamId, st') ∧
      st'.db.teamMembers = inviteCtx.db.teamMembers ++
        [{ userId := "id" ++ toString inviteCtx.nextId, teamId := demoInvitation.teamId
           role := demoInvitation.role }] ∧
      storedPayload st'.jar = some ⟨⟨"id" ++ toString inviteCtx.nextId
        , demoInvitation.teamId, .ADMIN⟩, inviteCtx.now + 24 * 60 * 60 * 1000⟩ ∧
      (demoInvitation.role = .MEMBER →
        (storedPayload st'.jar).map (fun p => p.userRole) ≠ some demoInvitation.role) :=
  C10_signUp_invitation_role_mismatch inviteCtx demoSignUpData [] "inv1"
    demoInvitation none (by rfl) rfl (by rfl) (by rfl)

end SaaS
